import Mathlib

/-!
Verification of the `hal` and `i2c` modules of the rppal fork.

The embedding follows `src/hal.rs` and `src/i2c.rs` directly:

* `u64` values are modelled as `Nat` with explicit `% U64_MOD` where the
  source's arithmetic may wrap (the `From` conversions multiply `u64`s).
* `std::time::Instant` (a monotonic clock reading) is modelled as a `Nat`
  counting nanoseconds since an arbitrary epoch of the monotonic clock;
  `Instant::elapsed` is truncated subtraction, which matches the saturating
  behaviour of the std method and the monotonicity of the clock.
* `std::time::Duration` is modelled by its exact total nanosecond count
  (a `Nat`); `Duration::from_micros` and `Duration::from_millis` never
  overflow in std, so the total-nanosecond value is exact.
* `thread::sleep(d)` is observable only through the duration it is asked to
  sleep for, so each `Delay` method is modelled as the function computing
  the requested sleep duration in nanoseconds.
* `nb::Result<(), Void>` is `Except (NbError Void) Unit` with `Void` an
  empty inductive (the `void` crate's uninhabited type) and `NbError`
  mirroring `nb::Error` with its `Other` and `WouldBlock` variants.
* Methods taking `&mut self` return the updated receiver explicitly;
  `Timer::wait` returns the pair of the receiver after the call and the
  `nb::Result` value.
-/

/-- The modulus of `u64` arithmetic: `2 ^ 64`. -/
def U64_MOD : Nat := 2 ^ 64

/-- `std::time::Duration::from_micros us` as an exact nanosecond count:
`secs = us / 1_000_000`, `nanos = (us % 1_000_000) * 1_000`, whose total is
`us * 1000` nanoseconds, with no overflow possible in std. -/
def durationFromMicros (us : Nat) : Nat := us * 1000

/-- `std::time::Duration::from_millis ms` as an exact nanosecond count:
`ms * 1_000_000` nanoseconds, with no overflow possible in std. -/
def durationFromMillis (ms : Nat) : Nat := ms * 1000000

/-- `std::time::Instant::elapsed`, given the stored instant `armed_at` and
the current monotonic reading `t` (both in nanoseconds): the duration
`t - armed_at`, saturating at zero exactly like the std method. -/
def instantElapsed (armed_at t : Nat) : Nat := t - armed_at

/-- The `void::Void` uninhabited error type. -/
inductive Void : Type

instance : DecidableEq Void := fun v => nomatch v

/-- `nb::Error<E>`: either a different kind of error `other e`, or the
operation would block. -/
inductive NbError (E : Type) : Type where
  | other : E → NbError E
  | wouldBlock : NbError E
deriving DecidableEq

instance : DecidableEq (Except (NbError Void) Unit) := fun a b =>
  match a, b with
  | Except.ok (), Except.ok () => isTrue rfl
  | Except.ok _, Except.error _ => isFalse Except.noConfusion
  | Except.error _, Except.ok _ => isFalse Except.noConfusion
  | Except.error e, Except.error e2 =>
      if h : e = e2 then isTrue (by rw [h]) else isFalse fun hh => h (Except.error.inj hh)

/-- `rppal::hal::Delay`: a stateless marker struct. -/
structure Delay

/-- `Delay::new`. -/
def Delay.new : Delay := {}

/-- `u64::from` applied to a `u8`/`u16`/`u32`: widening is lossless, so on
the `Nat` model it is the identity. -/
def u64From (n : Nat) : Nat := n

/-- `DelayMs<u8>::delay_ms`: requests `thread::sleep(Duration::from_millis(u64::from(ms)))`. -/
def Delay.delay_ms_u8 (d : Delay) (ms : Nat) : Nat :=
  durationFromMillis (u64From ms)

/-- `DelayMs<u16>::delay_ms`. -/
def Delay.delay_ms_u16 (d : Delay) (ms : Nat) : Nat :=
  durationFromMillis (u64From ms)

/-- `DelayMs<u32>::delay_ms`. -/
def Delay.delay_ms_u32 (d : Delay) (ms : Nat) : Nat :=
  durationFromMillis (u64From ms)

/-- `DelayMs<u64>::delay_ms`: requests `thread::sleep(Duration::from_millis(ms))`. -/
def Delay.delay_ms_u64 (d : Delay) (ms : Nat) : Nat :=
  durationFromMillis ms

/-- `DelayUs<u8>::delay_us`: requests `thread::sleep(Duration::from_micros(u64::from(us)))`. -/
def Delay.delay_us_u8 (d : Delay) (us : Nat) : Nat :=
  durationFromMicros (u64From us)

/-- `DelayUs<u16>::delay_us`. -/
def Delay.delay_us_u16 (d : Delay) (us : Nat) : Nat :=
  durationFromMicros (u64From us)

/-- `DelayUs<u32>::delay_us`. -/
def Delay.delay_us_u32 (d : Delay) (us : Nat) : Nat :=
  durationFromMicros (u64From us)

/-- `DelayUs<u64>::delay_us`: requests `thread::sleep(Duration::from_micros(us))`. -/
def Delay.delay_us_u64 (d : Delay) (us : Nat) : Nat :=
  durationFromMicros us

/-- `rppal::hal::Millisecond(pub u64)`. -/
structure Millisecond where
  val : Nat
deriving DecidableEq

/-- `rppal::hal::Microsecond(pub u64)`. -/
structure Microsecond where
  val : Nat
deriving DecidableEq

/-- `rppal::hal::Second(pub u64)`. -/
structure Second where
  val : Nat
deriving DecidableEq

/-- `impl From<Millisecond> for Microsecond`: `Microsecond(item.0 * 1_000)`,
with `u64` multiplication wrapping modulo `2 ^ 64`. -/
def Microsecond.fromMillisecond (item : Millisecond) : Microsecond :=
  Microsecond.mk (item.val * 1000 % U64_MOD)

/-- `impl From<Second> for Microsecond`: `Microsecond(item.0 * 1_000_000)`,
with `u64` multiplication wrapping modulo `2 ^ 64`. -/
def Microsecond.fromSecond (item : Second) : Microsecond :=
  Microsecond.mk (item.val * 1000000 % U64_MOD)

/-- The blanket `impl From<T> for T` in Rust core: converting a
`Microsecond` into a `Microsecond` is the identity. -/
def Microsecond.fromMicrosecond (item : Microsecond) : Microsecond := item

/-- `Microsecond::as_u64`: the wrapped `u64`. -/
def Microsecond.as_u64 (m : Microsecond) : Nat := m.val

/-- `rppal::hal::Timer`: field `now` is the `Instant` captured when the
timer was last armed (construction or `start`), field `duration` is the
armed `Duration` (both in nanoseconds of the model). -/
structure Timer where
  now : Nat
  duration : Nat
deriving DecidableEq

/-- `Timer::new`, called when the monotonic clock reads `t`: stores
`Instant::now()` and `Duration::from_micros(0)`. -/
def Timer.new (t : Nat) : Timer :=
  { now := t, duration := durationFromMicros 0 }

/-- `CountDown::start` for `Timer`, called when the monotonic clock reads
`t`: sets `self.duration = Duration::from_micros(timeout.into().as_u64())`
and `self.now = Instant::now()`. Callers with `Millisecond`/`Second`
timeouts go through the `From` conversions above. -/
def Timer.start (tm : Timer) (timeout : Microsecond) (t : Nat) : Timer :=
  { now := t, duration := durationFromMicros timeout.as_u64 }

/-- `CountDown::wait` for `Timer`, called when the monotonic clock reads
`t`: returns `Ok(())` if `self.now.elapsed() >= self.duration`, else
`Err(nb::Error::WouldBlock)`. The first component is the receiver after
the call (the body assigns to no field). -/
def Timer.wait (tm : Timer) (t : Nat) : Timer × Except (NbError Void) Unit :=
  if tm.duration ≤ instantElapsed tm.now t then
    (tm, Except.ok ())
  else
    (tm, Except.error NbError.wouldBlock)

/-- `rppal::i2c::Error`: a single variant wrapping a `std::io::Error`
(modelled opaquely by its OS error code). -/
structure IoError where
  code : Nat
deriving DecidableEq

/-- The `i2c::Error` enum generated by `quick_error!`. -/
inductive I2cError : Type where
  | io : IoError → I2cError
deriving DecidableEq

/-- `rppal::i2c::I2c`: a fieldless bus handle. -/
structure I2c
deriving DecidableEq

/-- `I2c::new`: returns `Ok(I2c {})`. -/
def I2c.new : Except I2cError I2c := Except.ok {}

/-- C1: `wait` reports complete exactly when the elapsed monotonic time
since arming is at least the stored duration, and otherwise reports
would-block; the outcome is determined by this comparison alone. -/
theorem wait_ok_iff_elapsed_ge_duration (tm : Timer) (t : Nat) (h : tm.now ≤ t) :
    ((tm.wait t).2 = Except.ok () ↔ tm.duration ≤ t - tm.now) ∧
    ((tm.wait t).2 = Except.error NbError.wouldBlock ↔ t - tm.now < tm.duration) := by
  unfold Timer.wait instantElapsed
  split
  · next hc => simp_all [Nat.not_lt.mpr hc]
  · next hc => simp_all [Nat.not_le.mp hc, Nat.le_of_lt]

/-- C1 witness: a concrete armed timer polled before and at its deadline. -/
theorem wait_ok_iff_elapsed_ge_duration_witness :
    (Timer.mk 10 3000).now ≤ 12 ∧
    ((((Timer.mk 10 3000).wait 12).2 = Except.ok () ↔
        (Timer.mk 10 3000).duration ≤ 12 - (Timer.mk 10 3000).now) ∧
      (((Timer.mk 10 3000).wait 12).2 = Except.error NbError.wouldBlock ↔
        12 - (Timer.mk 10 3000).now < (Timer.mk 10 3000).duration)) :=
  ⟨by decide, wait_ok_iff_elapsed_ge_duration (Timer.mk 10 3000) 12 (by decide)⟩

/-- C2: unit conversion into `Microsecond` is exact on the representable
range: `Millisecond n` gives `n * 1000`, `Second n` gives `n * 1000000`
whenever the product fits in a `u64`, and `Microsecond n` converts to
itself. -/
theorem conversion_exact (n : Nat) :
    (n * 1000 < U64_MOD →
      Microsecond.fromMillisecond (Millisecond.mk n) = Microsecond.mk (n * 1000)) ∧
    (n * 1000000 < U64_MOD →
      Microsecond.fromSecond (Second.mk n) = Microsecond.mk (n * 1000000)) ∧
    Microsecond.fromMicrosecond (Microsecond.mk n) = Microsecond.mk n := by
  refine ⟨fun hms => ?_, fun hs => ?_, rfl⟩
  · simp [Microsecond.fromMillisecond, Nat.mod_eq_of_lt hms]
  · simp [Microsecond.fromSecond, Nat.mod_eq_of_lt hs]

/-- C2 witness: the three conversions evaluated at `n = 7`. -/
theorem conversion_exact_witness :
    Microsecond.fromMillisecond (Millisecond.mk 7) = Microsecond.mk (7 * 1000) ∧
    Microsecond.fromSecond (Second.mk 7) = Microsecond.mk (7 * 1000000) ∧
    Microsecond.fromMicrosecond (Microsecond.mk 7) = Microsecond.mk 7 :=
  ⟨(conversion_exact 7).1 (by decide), (conversion_exact 7).2.1 (by decide),
    (conversion_exact 7).2.2⟩

/-- C3: `wait` leaves the timer unchanged in both outcomes, and after a
complete report every later poll (the clock being monotonic) also reports
complete. -/
theorem wait_frame (tm : Timer) (t : Nat) :
    (tm.wait t).1 = tm ∧
    ((tm.wait t).2 = Except.ok () →
      ∀ t2, t ≤ t2 → (((tm.wait t).1).wait t2).2 = Except.ok ()) := by
  have h1 : (tm.wait t).1 = tm := by
    unfold Timer.wait
    split <;> rfl
  refine ⟨h1, ?_⟩
  intro hok t2 ht2
  rw [h1]
  unfold Timer.wait instantElapsed at hok ⊢
  split at hok
  · next hc =>
      rw [if_pos (le_trans hc (Nat.sub_le_sub_right ht2 tm.now))]
  · exact Except.noConfusion hok

/-- C3 witness: an elapsed timer polled twice; the state survives and the
second poll still reports complete. -/
theorem wait_frame_witness :
    ((Timer.mk 3 100).wait 200).1 = Timer.mk 3 100 ∧
    ((((Timer.mk 3 100).wait 200).1).wait 300).2 = Except.ok () :=
  ⟨(wait_frame (Timer.mk 3 100) 200).1,
    (wait_frame (Timer.mk 3 100) 200).2 (by decide) 300 (by decide)⟩

/-- C4: `start` unconditionally overwrites both fields, independently of the
prior state, and in particular `start(Second(10))` immediately followed by
`start(Millisecond(5))` leaves exactly the 5 ms deadline armed at the
second call's timestamp. -/
theorem start_rearms (tm : Timer) (x : Microsecond) (t1 t2 : Nat) :
    tm.start x t2 = Timer.mk t2 (durationFromMicros x.as_u64) ∧
    (tm.start (Microsecond.fromSecond (Second.mk 10)) t1).start
        (Microsecond.fromMillisecond (Millisecond.mk 5)) t2 =
      Timer.mk t2 (durationFromMicros 5000) := by
  exact ⟨rfl, rfl⟩

/-- C5: a freshly constructed timer has duration zero, and polling it at any
monotonic instant at or after construction reports elapsed. -/
theorem new_timer_elapsed (t0 t : Nat) (h : t0 ≤ t) :
    (Timer.new t0).duration = 0 ∧ ((Timer.new t0).wait t).2 = Except.ok () := by
  refine ⟨rfl, ?_⟩
  simp [Timer.new, Timer.wait, instantElapsed, durationFromMicros]

/-- C5 witness: a timer constructed at instant 5 polled at instant 9. -/
theorem new_timer_elapsed_witness :
    5 ≤ 9 ∧ ((Timer.new 5).duration = 0 ∧ ((Timer.new 5).wait 9).2 = Except.ok ()) :=
  ⟨by decide, new_timer_elapsed 5 9 (by decide)⟩

/-- C6: `wait` has exactly two outcomes, `Ok(())` and
`Err(nb::Error::WouldBlock)`; the `Other` branch carries the uninhabited
`Void` payload and is unreachable. -/
theorem wait_two_outcomes (tm : Timer) (t : Nat) :
    ((tm.wait t).2 = Except.ok () ∨ (tm.wait t).2 = Except.error NbError.wouldBlock) ∧
    ∀ e : NbError Void, (tm.wait t).2 = Except.error e → e = NbError.wouldBlock := by
  constructor
  · unfold Timer.wait
    split
    · exact Or.inl rfl
    · exact Or.inr rfl
  · intro e he
    cases e with
    | other v => exact nomatch v
    | wouldBlock => rfl

/-- C6 witness: the not-yet-elapsed outcome at a concrete input is
classified as would-block. -/
theorem wait_two_outcomes_witness :
    ((Timer.mk 0 100).wait 50).2 = Except.ok () ∨
      ((Timer.mk 0 100).wait 50).2 = Except.error NbError.wouldBlock :=
  (wait_two_outcomes (Timer.mk 0 100) 50).1

/-- C7: for each width in 8/16/32 bits, `delay_ms` (resp. `delay_us`)
requests the same sleep as the 64-bit version at the widened value, and
every width requests exactly `n` milliseconds (resp. microseconds); the
widening `u64::from` preserves the value, so no overflow occurs. -/
theorem delay_widths_agree (d : Delay) (n : Nat) :
    (n < 2 ^ 8 →
      d.delay_ms_u8 n = d.delay_ms_u64 (u64From n) ∧
      d.delay_us_u8 n = d.delay_us_u64 (u64From n) ∧
      d.delay_ms_u8 n = durationFromMillis n ∧ d.delay_us_u8 n = durationFromMicros n ∧
      u64From n = n ∧ u64From n < U64_MOD) ∧
    (n < 2 ^ 16 →
      d.delay_ms_u16 n = d.delay_ms_u64 (u64From n) ∧
      d.delay_us_u16 n = d.delay_us_u64 (u64From n) ∧
      d.delay_ms_u16 n = durationFromMillis n ∧ d.delay_us_u16 n = durationFromMicros n ∧
      u64From n = n ∧ u64From n < U64_MOD) ∧
    (n < 2 ^ 32 →
      d.delay_ms_u32 n = d.delay_ms_u64 (u64From n) ∧
      d.delay_us_u32 n = d.delay_us_u64 (u64From n) ∧
      d.delay_ms_u32 n = durationFromMillis n ∧ d.delay_us_u32 n = durationFromMicros n ∧
      u64From n = n ∧ u64From n < U64_MOD) := by
  refine ⟨fun h8 => ⟨rfl, rfl, rfl, rfl, rfl, ?_⟩,
    fun h16 => ⟨rfl, rfl, rfl, rfl, rfl, ?_⟩,
    fun h32 => ⟨rfl, rfl, rfl, rfl, rfl, ?_⟩⟩
  · exact lt_of_lt_of_le h8 (by norm_num [U64_MOD])
  · exact lt_of_lt_of_le h16 (by norm_num [U64_MOD])
  · exact lt_of_lt_of_le h32 (by norm_num [U64_MOD])

/-- C7 witness: the 8-bit width evaluated at 200 milliseconds agrees with
the 64-bit version and requests exactly 200 ms. -/
theorem delay_widths_agree_witness :
    Delay.new.delay_ms_u8 200 = Delay.new.delay_ms_u64 (u64From 200) ∧
    Delay.new.delay_us_u8 200 = Delay.new.delay_us_u64 (u64From 200) ∧
    Delay.new.delay_ms_u8 200 = durationFromMillis 200 ∧
    Delay.new.delay_us_u8 200 = durationFromMicros 200 ∧
    u64From 200 = 200 ∧ u64From 200 < U64_MOD :=
  (delay_widths_agree Delay.new 200).1 (by decide)

/-- C8: conversion into `Microsecond` is total over all of `Nat` and its
result is exactly the product reduced modulo `2 ^ 64`, hence always a valid
`u64`: oversized products silently wrap rather than fail. -/
theorem conversion_total_wraps (n : Nat) :
    Microsecond.fromMillisecond (Millisecond.mk n) = Microsecond.mk (n * 1000 % U64_MOD) ∧
    Microsecond.fromSecond (Second.mk n) = Microsecond.mk (n * 1000000 % U64_MOD) ∧
    (Microsecond.fromMillisecond (Millisecond.mk n)).val < U64_MOD ∧
    (Microsecond.fromSecond (Second.mk n)).val < U64_MOD := by
  refine ⟨rfl, rfl, ?_, ?_⟩ <;>
    exact Nat.mod_lt _ (by norm_num [U64_MOD])

/-- C9: constructing a timer, arming it with `Microsecond(0)` and polling at
any monotonic instant at or after the arming reports elapsed at once. -/
theorem zero_deadline_instant (t0 t1 t2 : Nat) (h : t1 ≤ t2) :
    ((((Timer.new t0).start (Microsecond.fromMicrosecond (Microsecond.mk 0)) t1).wait
        t2).2 = Except.ok ()) := by
  simp [Timer.new, Timer.start, Timer.wait, instantElapsed, durationFromMicros,
    Microsecond.fromMicrosecond, Microsecond.as_u64]

/-- C9 witness: construct at 3, arm with a zero deadline at 4, poll at 4. -/
theorem zero_deadline_instant_witness :
    ((((Timer.new 3).start (Microsecond.fromMicrosecond (Microsecond.mk 0)) 4).wait
        4).2 = Except.ok ()) :=
  zero_deadline_instant 3 4 4 (by decide)

/-- C10: `I2c::new` always returns `Ok` with a bus handle; the error variant
is never produced. -/
theorem i2c_new_ok : I2c.new = Except.ok I2c.mk := rfl
